import Mathlib

/-!
Verification of the log-streaming subsystem of the nano-whale application
(`src/main.py`), as a shallow embedding in Lean 4.

The embedding covers:
  * the `LogStreamer` worker object (`__init__`, `run`'s command construction
    and end-of-stream messages, `terminate`, the `finally` teardown block);
  * the per-view restart protocol `restart_log_stream` (mode dispatch, sink
    wiping, filter resolution, registry update);
  * the initial worker set-up performed by `show_logs`;
  * the application-level close handler `on_close`.

Python `None` is modelled by `Option.none`; Python string truthiness
(`if not self.until_time`) is modelled by `pyTruthy`, under which both `None`
and the empty string are falsy.  Mutable object identity of worker threads
(used by `list.remove`) is modelled by a numeric `wid` field that every
mutation preserves; the per-view registry `active_log_threads` stores those
identities.  The UI text widget (the Sink) is modelled as the list of chunks
appended since it was last cleared.
-/

/-- Python truthiness of an optional string: `None` and `""` are falsy. -/
def pyTruthy : Option String → Bool
  | none => false
  | some s => !(s == "")

/-- Python `f"...{v}..."` formatting of an optional string. -/
def pyFormat : Option String → String
  | none => "None"
  | some s => s

/-- `DOCKER_CMD_PREFIX` from `src/main.py` line 22 (renamed for Lean). -/
def dockerCmdBase : List String := ["wsl", "docker"]

/-- The `LogStreamer` thread object (`src/main.py` lines 1201-1290).
`wid` models Python object identity (stable across mutation); `log_process`
is `none` before `Popen` runs and `some alive` afterwards, where `alive`
models `poll() is None`; `running` is the liveness flag set in `__init__`. -/
structure LogStreamer where
  wid : Nat
  container_id : String
  since_time : Option String
  until_time : Option String
  show_timestamps : Bool
  log_process : Option Bool
  running : Bool
  deriving DecidableEq, Repr

/-- `LogStreamer.__init__` (lines 1204-1222): stores the filter state,
leaves the process unspawned and sets the liveness flag. -/
def LogStreamer.init (wid : Nat) (container_id : String)
    (since_time until_time : Option String) (show_timestamps : Bool) :
    LogStreamer :=
  { wid := wid
    container_id := container_id
    since_time := since_time
    until_time := until_time
    show_timestamps := show_timestamps
    log_process := none
    running := true }

/-- The command list built at the top of `LogStreamer.run`
(lines 1225-1241): `-t` iff `show_timestamps`, `-f` iff `until_time` is
falsy, `--since=`/`--until=` for truthy bounds, container id last. -/
def LogStreamer.buildCommand (w : LogStreamer) : List String :=
  dockerCmdBase ++ ["logs"]
    ++ (if w.show_timestamps then ["-t"] else [])
    ++ (if pyTruthy w.until_time then [] else ["-f"])
    ++ (if pyTruthy w.since_time then ["--since=" ++ pyFormat w.since_time]
        else [])
    ++ (if pyTruthy w.until_time then ["--until=" ++ pyFormat w.until_time]
        else [])
    ++ [w.container_id]

/-- `LogStreamer.terminate` (lines 1287-1290): clear the liveness flag, then
terminate the process if it was spawned and still alive. -/
def LogStreamer.terminate (w : LogStreamer) : LogStreamer :=
  let w := { w with running := false }
  match w.log_process with
  | some true => { w with log_process := some false }
  | _ => w

/-- The `finally` block of `LogStreamer.run` (lines 1274-1278), minus the
exit-callback call which the trace model counts separately: clear the
liveness flag and defensively terminate a still-alive process. -/
def runFinally (w : LogStreamer) : LogStreamer :=
  let w := { w with running := false }
  match w.log_process with
  | some true => { w with log_process := some false }
  | _ => w

-- ## Worker trace model
--
-- The only mutations of a `LogStreamer` after construction are
-- `terminate` (callable from any thread, any number of times) and the
-- `finally` block at the end of `run` (executed exactly once by the worker's
-- own thread, and the only place that invokes `on_exit_callback`).
-- A worker history is a list of these events; `WorkerObs` pairs the worker
-- with the number of exit-callback invocations observed so far.

/-- A mutation event on one worker: an external `terminate` call, or the
worker's own `run` method reaching its `finally` block. -/
inductive WEvent
  | term
  | runExit
  deriving DecidableEq, Repr

/-- A worker together with the number of `on_exit_callback` invocations. -/
structure WorkerObs where
  worker : LogStreamer
  exitCalls : Nat
  deriving DecidableEq, Repr

/-- Apply one event: `terminate` mutates the worker only; the `finally`
block (lines 1274-1278) additionally calls `on_exit_callback` once. -/
def stepWorker (o : WorkerObs) : WEvent → WorkerObs
  | WEvent.term => { o with worker := o.worker.terminate }
  | WEvent.runExit =>
      { worker := runFinally o.worker, exitCalls := o.exitCalls + 1 }

-- ## End-of-stream messages appended by `LogStreamer.run`

/-- Outcome of the body of `LogStreamer.run` after the streaming loop:
either `Popen.wait()` returned an exit code, or an exception was raised
while spawning or reading. -/
inductive RunOutcome
  | ok (exitCode : Int)
  | exn (msg : String)
  deriving DecidableEq, Repr

/-- The "stream finished" line of `run` (line 1267). -/
def finishedLine (w : LogStreamer) : String :=
  "\n--- Log stream finished at " ++ pyFormat w.until_time
    ++ ". No more logs. ---\n"

/-- The error line of `run`'s `except` clause (line 1272). -/
def streamErrorLine (msg : String) : String :=
  "\n--- ERROR: Log Streamer failed: " ++ msg ++ " ---\n"

/-- The trailing messages `run` appends to the Sink after its streaming
loop (lines 1262-1273): the finished line iff `wait()` returned `0` and an
`until` bound is truthy; the single error line on an exception. -/
def runEndMessages (w : LogStreamer) (out : RunOutcome) : List String :=
  match out with
  | RunOutcome.ok code =>
      if code = 0 ∧ pyTruthy w.until_time then [finishedLine w] else []
  | RunOutcome.exn msg => [streamErrorLine msg]

-- ## The per-view restart protocol

/-- Restart causes: the `mode` argument of `restart_log_stream`. -/
inductive Mode
  | range
  | history
  | clear
  | timestamp_toggle
  deriving DecidableEq, Repr

/-- The state of one open log view: the Sink contents, the current
`log_thread` reference, the worker registry `active_log_threads`
(object identities), the filter entry fields, the timestamp checkbox, the
container id, and a fresh-identity counter for newly constructed workers. -/
structure LogView where
  sink : List String
  log_thread : LogStreamer
  registry : List Nat
  from_time_var : String
  to_time_var : String
  timestamp_var : Bool
  container_id : String
  next_wid : Nat
  deriving DecidableEq, Repr

/-- Steps 3-5 of `restart_log_stream` (lines 1130-1156): construct the new
worker, remove the old thread from `active_log_threads` (`list.remove`
guarded by `try/except ValueError` with `_safe_remove_log_thread` as
fallback; net effect: erase the first occurrence if present), append the
new worker, start it, and replace the `log_thread` reference. -/
def startNewWorker (st : LogView) (old : LogStreamer) (sink : List String)
    (since untl : Option String) (ts : Bool) : LogView :=
  let nw := LogStreamer.init st.next_wid st.container_id since untl ts
  { st with
    sink := sink
    log_thread := nw
    registry := (st.registry.erase old.wid) ++ [nw.wid]
    next_wid := st.next_wid + 1 }

/-- The error line inserted by the `clear` branch when the time query
fails (line 1111). -/
def errFetchLine : String :=
  "--- ERROR: Could not fetch time. Stream failed. ---\n"

/-- `restart_log_stream` (lines 1080-1156).  `timeQuery` is the value
`self._get_wsl_current_time()` would return if the `clear` branch calls it
(`none` models a failed query).  The wipe of `log_text` (lines 1089-1091)
is unconditional in the source: it happens for every mode, before the mode
dispatch.  In the `clear` branch, a falsy query result appends one error
line and returns without constructing or registering a new worker; the
`log_thread` reference still points at the old, terminated worker. -/
def restart_log_stream (st : LogView) (mode : Mode)
    (timeQuery : Option String) : LogView :=
  let show_timestamps := st.timestamp_var
  let old := st.log_thread.terminate
  let sink : List String := []
  match mode with
  | Mode.range =>
      let since :=
        if st.from_time_var == "" then none else some st.from_time_var
      let untl :=
        if st.to_time_var == "" then none else some st.to_time_var
      startNewWorker st old sink since untl show_timestamps
  | Mode.history => startNewWorker st old sink none none show_timestamps
  | Mode.clear =>
      let since := timeQuery
      if pyTruthy since then
        startNewWorker st old sink since none show_timestamps
      else
        { st with sink := sink ++ [errFetchLine], log_thread := old }
  | Mode.timestamp_toggle =>
      startNewWorker st old sink old.since_time old.until_time
        show_timestamps

/-- The initial state of a log view (`show_logs`, lines 1018-1034 and
1158-1168): empty text widget, empty entry fields, timestamp checkbox
defaulting to `True`, and the initial worker constructed with
`since_time = self._get_wsl_current_time()` (whatever it returned, with no
check), `until_time = None`, then registered and started. -/
def show_logs_open (container_id : String) (timeQuery : Option String)
    (registry : List Nat) : LogView :=
  let lt := LogStreamer.init 0 container_id timeQuery none true
  { sink := []
    log_thread := lt
    registry := registry ++ [lt.wid]
    from_time_var := ""
    to_time_var := ""
    timestamp_var := true
    container_id := container_id
    next_wid := 1 }

-- ## The application close handler

/-- The fields of a worker thread that `on_close` reads (`is_alive()` and
`log_process`), plus an environment flag recording whether this worker's
`log_process.terminate()` call would raise. -/
structure AppWorker where
  is_alive : Bool
  log_process : Option Bool
  terminate_throws : Bool
  deriving DecidableEq, Repr

/-- The guard of `on_close`'s loop body (line 124):
`thread.is_alive() and thread.log_process`. -/
def closeQualifies (w : AppWorker) : Bool :=
  w.is_alive && w.log_process.isSome

/-- Effect of `thread.log_process.terminate()` on one worker. -/
def closeWorker (w : AppWorker) : AppWorker :=
  if closeQualifies w then
    { w with log_process := w.log_process.map (fun _ => false) }
  else w

/-- `on_close` (lines 121-127): iterate `active_log_threads`; for each
thread that is alive and has a spawned process, call
`log_process.terminate()`.  There is no exception handling, so a raise
propagates and skips the rest of the loop.  Nothing is ever removed from
`active_log_threads`.  The result is the registry contents after the loop
together with the number of terminate calls made, or the propagated
exception. -/
def on_close : List AppWorker → Except String (List AppWorker × Nat)
  | [] => Except.ok ([], 0)
  | w :: ws =>
    if closeQualifies w then
      if w.terminate_throws then Except.error "terminate raised"
      else
        match on_close ws with
        | Except.ok (rest, n) => Except.ok (closeWorker w :: rest, n + 1)
        | Except.error e => Except.error e
    else
      match on_close ws with
      | Except.ok (rest, n) => Except.ok (closeWorker w :: rest, n)
      | Except.error e => Except.error e

-- ## Concrete states used by witnesses and counterexamples

/-- A sample running worker (process spawned and alive). -/
def sampleWorker : LogStreamer :=
  { wid := 0
    container_id := "abc123"
    since_time := some "2024-01-01T00:00:00Z"
    until_time := none
    show_timestamps := true
    log_process := some true
    running := true }

/-- A worker whose process has exited and whose liveness flag is down. -/
def deadWorker : LogStreamer :=
  { wid := 1
    container_id := "abc123"
    since_time := none
    until_time := none
    show_timestamps := true
    log_process := some false
    running := false }

/-- A bounded-range worker (an `until` bound is set). -/
def boundedWorker : LogStreamer :=
  { wid := 2
    container_id := "abc123"
    since_time := some "2024-01-01T00:00:00Z"
    until_time := some "2024-01-02T00:00:00Z"
    show_timestamps := true
    log_process := some true
    running := true }

/-- A sample log view whose Sink holds one line. -/
def sampleView : LogView :=
  { sink := ["2024-01-01T00:00:00Z hello\n"]
    log_thread := sampleWorker
    registry := [0]
    from_time_var := ""
    to_time_var := ""
    timestamp_var := true
    container_id := "abc123"
    next_wid := 1 }

/-- An `on_close` worker whose process terminates without raising. -/
def aliveAppWorker : AppWorker :=
  { is_alive := true, log_process := some true, terminate_throws := false }

/-- An `on_close` worker whose `log_process.terminate()` raises. -/
def throwingAppWorker : AppWorker :=
  { is_alive := true, log_process := some true, terminate_throws := true }

-- ## String helper lemmas

theorem string_data_append (s t : String) : (s ++ t).data = s.data ++ t.data :=
  rfl

/-- Appending different strings of equal length yields different strings. -/
theorem string_append_ne (p q s t : String)
    (hlen : p.length = q.length) (hne : p ≠ q) : p ++ s ≠ q ++ t := by
  intro h
  apply hne
  have hd : p.data ++ s.data = q.data ++ t.data := by
    have := congrArg String.data h
    simpa [string_data_append] using this
  have hl : p.data.length = q.data.length := hlen
  exact String.ext (List.append_inj_left hd hl)

/-- A string shorter than `p` is never `p ++ s`. -/
theorem short_ne_append (a p s : String) (h : a.length < p.length) :
    a ≠ p ++ s := by
  intro he
  have hl : a.length = (p ++ s).length := congrArg String.length he
  have hps : (p ++ s).length = p.length + s.length := by
    show (p ++ s).data.length = p.data.length + s.data.length
    rw [string_data_append, List.length_append]
  omega

-- ## Worker trace lemmas

theorem exitCalls_foldl (es : List WEvent) (o : WorkerObs) :
    (es.foldl stepWorker o).exitCalls
      = o.exitCalls + es.count WEvent.runExit := by
  induction es generalizing o with
  | nil => simp
  | cons e es ih =>
    cases e
    · simp [List.foldl_cons, ih, stepWorker, List.count_cons]
    · simp [List.foldl_cons, ih, stepWorker, List.count_cons]
      omega

theorem terminate_running (w : LogStreamer) : w.terminate.running = false := by
  rcases w with ⟨wid, cid, s, u, ts, proc, run⟩
  rcases proc with _ | b
  · rfl
  · cases b <;> rfl

theorem runFinally_running (w : LogStreamer) :
    (runFinally w).running = false := by
  rcases w with ⟨wid, cid, s, u, ts, proc, run⟩
  rcases proc with _ | b
  · rfl
  · cases b <;> rfl

theorem finishedLine_ne_errorLine (w : LogStreamer) (msg : String) :
    finishedLine w ≠ streamErrorLine msg := by
  intro h
  have hd := congrArg String.data h
  simp only [finishedLine, streamErrorLine, string_data_append,
    List.append_assoc] at hd
  have h9 := congrArg (List.take 9) hd
  rw [List.take_append_of_le_length (by decide),
    List.take_append_of_le_length (by decide)] at h9
  exact absurd h9 (by decide)

-- ## Claim theorems

/-- **C2.** For every worker with any combination of `show_timestamps`,
`since`, `until` and resource id, the constructed log command contains the
timestamps flag `-t` iff `show_timestamps` is true, contains the follow
flag `-f` iff `until` is absent, contains `--since=<value>` iff `since` is
set, contains `--until=<value>` iff `until` is set, and the resource id is
the last argument.  (The hypotheses rule out degenerate values — empty
bound strings and container ids that collide with flag tokens — which the
surrounding program never produces.) -/
theorem buildCommand_flag_spec (w : LogStreamer)
    (hs : w.since_time ≠ some "") (hu : w.until_time ≠ some "")
    (hct : w.container_id ≠ "-t") (hcf : w.container_id ≠ "-f")
    (hcs : ∀ v, w.container_id ≠ "--since=" ++ v)
    (hcu : ∀ v, w.container_id ≠ "--until=" ++ v) :
    ("-t" ∈ w.buildCommand ↔ w.show_timestamps = true)
  ∧ ("-f" ∈ w.buildCommand ↔ w.until_time = none)
  ∧ (∀ v, w.since_time = some v → "--since=" ++ v ∈ w.buildCommand)
  ∧ (w.since_time = none → ∀ v, "--since=" ++ v ∉ w.buildCommand)
  ∧ (∀ v, w.until_time = some v → "--until=" ++ v ∈ w.buildCommand)
  ∧ (w.until_time = none → ∀ v, "--until=" ++ v ∉ w.buildCommand)
  ∧ w.buildCommand.getLast? = some w.container_id := by
  have hlast : w.buildCommand.getLast? = some w.container_id := by
    simp only [LogStreamer.buildCommand]
    exact List.getLast?_concat _
  have n1 : ∀ v, ¬("-t" = "--since=" ++ v) := fun v =>
    short_ne_append _ _ _ (by decide)
  have n2 : ∀ v, ¬("-t" = "--until=" ++ v) := fun v =>
    short_ne_append _ _ _ (by decide)
  have n3 : ∀ v, ¬("-f" = "--since=" ++ v) := fun v =>
    short_ne_append _ _ _ (by decide)
  have n4 : ∀ v, ¬("-f" = "--until=" ++ v) := fun v =>
    short_ne_append _ _ _ (by decide)
  have n5 : ∀ v u, ¬("--since=" ++ v = "--until=" ++ u) := fun v u =>
    string_append_ne _ _ _ _ (by decide) (by decide)
  have n6 : ∀ v u, ¬("--until=" ++ v = "--since=" ++ u) := fun v u =>
    string_append_ne _ _ _ _ (by decide) (by decide)
  have n7 : ∀ v, ¬("--since=" ++ v = "wsl") := fun v =>
    (short_ne_append _ _ _ (by decide)).symm
  have n8 : ∀ v, ¬("--since=" ++ v = "docker") := fun v =>
    (short_ne_append _ _ _ (by decide)).symm
  have n9 : ∀ v, ¬("--since=" ++ v = "logs") := fun v =>
    (short_ne_append _ _ _ (by decide)).symm
  have n10 : ∀ v, ¬("--since=" ++ v = "-t") := fun v =>
    (short_ne_append _ _ _ (by decide)).symm
  have n11 : ∀ v, ¬("--since=" ++ v = "-f") := fun v =>
    (short_ne_append _ _ _ (by decide)).symm
  have n12 : ∀ v, ¬("--until=" ++ v = "wsl") := fun v =>
    (short_ne_append _ _ _ (by decide)).symm
  have n13 : ∀ v, ¬("--until=" ++ v = "docker") := fun v =>
    (short_ne_append _ _ _ (by decide)).symm
  have n14 : ∀ v, ¬("--until=" ++ v = "logs") := fun v =>
    (short_ne_append _ _ _ (by decide)).symm
  have n15 : ∀ v, ¬("--until=" ++ v = "-t") := fun v =>
    (short_ne_append _ _ _ (by decide)).symm
  have n16 : ∀ v, ¬("--until=" ++ v = "-f") := fun v =>
    (short_ne_append _ _ _ (by decide)).symm
  obtain ⟨wid, cid, since, untl, ts, proc, run⟩ := w
  simp only at hs hu hct hcf hcs hcu hlast ⊢
  have hct' : ¬("-t" = cid) := fun h => hct h.symm
  have hcf' : ¬("-f" = cid) := fun h => hcf h.symm
  have hcs' : ∀ v, ¬("--since=" ++ v = cid) := fun v h => hcs v h.symm
  have hcu' : ∀ v, ¬("--until=" ++ v = cid) := fun v h => hcu v h.symm
  refine ⟨?_, ?_, ?_, ?_, ?_, ?_, hlast⟩ <;>
  · rcases since with _ | s <;> rcases untl with _ | u <;> cases ts <;>
      simp_all [LogStreamer.buildCommand, dockerCmdBase, pyTruthy, pyFormat]

/-- Witness for C2: the command of a concrete worker with
`since = 2024-01-01T00:00:00Z`, `until` absent, timestamps on. -/
theorem buildCommand_flag_spec_witness :
    ("-t" ∈ sampleWorker.buildCommand
        ↔ sampleWorker.show_timestamps = true)
  ∧ ("-f" ∈ sampleWorker.buildCommand ↔ sampleWorker.until_time = none)
  ∧ (∀ v, sampleWorker.since_time = some v →
        "--since=" ++ v ∈ sampleWorker.buildCommand)
  ∧ (sampleWorker.since_time = none →
        ∀ v, "--since=" ++ v ∉ sampleWorker.buildCommand)
  ∧ (∀ v, sampleWorker.until_time = some v →
        "--until=" ++ v ∈ sampleWorker.buildCommand)
  ∧ (sampleWorker.until_time = none →
        ∀ v, "--until=" ++ v ∉ sampleWorker.buildCommand)
  ∧ sampleWorker.buildCommand.getLast? = some sampleWorker.container_id :=
  buildCommand_flag_spec sampleWorker (by decide) (by decide) (by decide)
    (by decide)
    (fun v => short_ne_append _ _ _ (by decide))
    (fun v => short_ne_append _ _ _ (by decide))

/-- **C4.** For every worker, any history of events containing the worker's
own exit exactly once — regardless of how many `terminate` calls are
interleaved, before or after it — produces exactly one exit-callback
invocation; `terminate` is idempotent, so a second call is a no-op and
raises nothing; and `terminate` on an already-dead, already-terminated
worker changes nothing at all. -/
theorem terminate_twice_single_callback :
    (∀ (w : LogStreamer) (es : List WEvent),
        es.count WEvent.runExit = 1 →
        (es.foldl stepWorker { worker := w, exitCalls := 0 }).exitCalls = 1)
  ∧ (∀ w : LogStreamer, w.terminate.terminate = w.terminate)
  ∧ (∀ w : LogStreamer, w.running = false → w.log_process ≠ some true →
        w.terminate = w) := by
  refine ⟨?_, ?_, ?_⟩
  · intro w es h
    rw [exitCalls_foldl, h]
  · intro w
    rcases w with ⟨wid, cid, s, u, ts, proc, run⟩
    rcases proc with _ | b
    · rfl
    · cases b <;> rfl
  · intro w h1 h2
    rcases w with ⟨wid, cid, s, u, ts, proc, run⟩
    simp only at h1 h2
    subst h1
    rcases proc with _ | b
    · rfl
    · cases b
      · rfl
      · exact absurd rfl h2

/-- Witness for C4: a trace `terminate; run-exit; terminate` on a concrete
worker yields exactly one callback, and `terminate` on a concrete dead
worker is the identity. -/
theorem terminate_twice_single_callback_witness :
    (([WEvent.term, WEvent.runExit, WEvent.term].foldl stepWorker
        { worker := sampleWorker, exitCalls := 0 }).exitCalls = 1)
  ∧ deadWorker.terminate = deadWorker :=
  ⟨terminate_twice_single_callback.1 sampleWorker _ (by decide),
   terminate_twice_single_callback.2.2 deadWorker (by decide) (by decide)⟩

/-- **C5.** For every worker and every run outcome, the terminal
explanatory line referencing the `until` bound is appended exactly once
iff the process exited with code `0` and an `until` bound was set; with no
`until` bound or a non-zero exit (or an exception), no such line is
appended. -/
theorem ended_naturally_line (w : LogStreamer) (out : RunOutcome)
    (hu : w.until_time ≠ some "") :
    ((runEndMessages w out).count (finishedLine w) = 1 ↔
        (out = RunOutcome.ok 0 ∧ w.until_time ≠ none))
  ∧ ((w.until_time = none ∨ out ≠ RunOutcome.ok 0) →
        (runEndMessages w out).count (finishedLine w) = 0) := by
  rcases out with code | msg
  · rcases huc : w.until_time with _ | u
    · simp [runEndMessages, pyTruthy, huc]
    · have hu' : u ≠ "" := fun h => hu (by rw [huc, h])
      by_cases hc : code = 0
      · subst hc
        simp [runEndMessages, pyTruthy, hu', huc]
      · simp [runEndMessages, pyTruthy, hu', huc, hc]
  · simp [runEndMessages, List.count_cons, finishedLine_ne_errorLine w msg]

/-- Witness for C5: a concrete bounded worker whose process exits with
code 0 appends the finished line exactly once. -/
theorem ended_naturally_line_witness :
    ((runEndMessages boundedWorker (RunOutcome.ok 0)).count
        (finishedLine boundedWorker) = 1 ↔
      (RunOutcome.ok 0 = RunOutcome.ok 0 ∧ boundedWorker.until_time ≠ none))
  ∧ ((boundedWorker.until_time = none ∨ RunOutcome.ok 0 ≠ RunOutcome.ok 0) →
        (runEndMessages boundedWorker (RunOutcome.ok 0)).count
          (finishedLine boundedWorker) = 0) :=
  ended_naturally_line boundedWorker (RunOutcome.ok 0) (by decide)

/-- **C8.** A worker's liveness flag is true from construction; it is
cleared by `terminate` and by the worker's own exit; and once false, no
sequence of further events ever makes it true again. -/
theorem running_flag_lifecycle :
    (∀ (wid : Nat) (cid : String) (s u : Option String) (ts : Bool),
        (LogStreamer.init wid cid s u ts).running = true)
  ∧ (∀ w : LogStreamer, w.terminate.running = false)
  ∧ (∀ w : LogStreamer, (runFinally w).running = false)
  ∧ (∀ (o : WorkerObs) (es : List WEvent), o.worker.running = false →
        (es.foldl stepWorker o).worker.running = false) := by
  have hstep : ∀ (o : WorkerObs) (e : WEvent),
      (stepWorker o e).worker.running = false := by
    intro o e
    cases e
    · exact terminate_running o.worker
    · exact runFinally_running o.worker
  refine ⟨fun _ _ _ _ _ => rfl, terminate_running, runFinally_running, ?_⟩
  intro o es h
  induction es generalizing o with
  | nil => exact h
  | cons e es ih =>
    rw [List.foldl_cons]
    exact ih _ (hstep o e)

/-- Witness for C8: a concrete dead worker stays dead across a further
`terminate` and a run-exit event. -/
theorem running_flag_lifecycle_witness :
    (([WEvent.term, WEvent.runExit].foldl stepWorker
        { worker := deadWorker, exitCalls := 1 }).worker.running = false) :=
  running_flag_lifecycle.2.2.2 _ [WEvent.term, WEvent.runExit] (by decide)

/-- **C1** (code bug).  The claim — and the source's own comments at lines
1036-1042 and 1116-1118 ("a new mode 'timestamp_toggle' which won't clear
the text") — say a `timestamp_toggle` restart must not clear the Sink.
The code wipes `log_text` unconditionally (lines 1089-1091) before the
mode dispatch, so a `timestamp_toggle` restart empties the Sink for every
starting state; in particular it does so on a concrete view whose Sink is
non-empty. -/
theorem restart_toggle_wipes_sink :
    (∀ (st : LogView) (tq : Option String),
        (restart_log_stream st Mode.timestamp_toggle tq).sink = [])
  ∧ sampleView.sink ≠ []
  ∧ (restart_log_stream sampleView Mode.timestamp_toggle none).sink = [] := by
  exact ⟨fun st tq => rfl, by decide, by decide⟩

/-- **C3.** A `clear`-mode restart whose current-time query fails
(returns `None`) aborts: the Sink ends up holding exactly the one error
line (so it was wiped before the query, whatever it held before), the
registry is unchanged, no new worker is constructed (the identity counter
does not advance), and the `log_thread` reference is left pointing at the
old worker, now terminated — no active stream. -/
theorem clear_mode_query_failure (st : LogView) :
    ((restart_log_stream st Mode.clear none).sink = [errFetchLine])
  ∧ ((restart_log_stream st Mode.clear none).registry = st.registry)
  ∧ ((restart_log_stream st Mode.clear none).next_wid = st.next_wid)
  ∧ ((restart_log_stream st Mode.clear none).log_thread
      = st.log_thread.terminate) := by
  exact ⟨rfl, rfl, rfl, rfl⟩

/-- **C7.** When the current-time query succeeds with timestamp `t`, the
initial worker built on view open has `since = t`, `until` absent, is
running, and its command follows (`-f`) with `--since=t` — the same filter
resolution a `clear`-mode restart with query result `t` produces. -/
theorem show_logs_initial_worker (cid t : String) (reg : List Nat)
    (st : LogView) (ht : t ≠ "") :
    ((show_logs_open cid (some t) reg).log_thread.since_time = some t)
  ∧ ((show_logs_open cid (some t) reg).log_thread.until_time = none)
  ∧ ((show_logs_open cid (some t) reg).log_thread.running = true)
  ∧ ("-f" ∈ (show_logs_open cid (some t) reg).log_thread.buildCommand)
  ∧ ("--since=" ++ t ∈ (show_logs_open cid (some t) reg).log_thread.buildCommand)
  ∧ ((restart_log_stream st Mode.clear (some t)).log_thread.since_time = some t)
  ∧ ((restart_log_stream st Mode.clear (some t)).log_thread.until_time = none) := by
  refine ⟨rfl, rfl, rfl, ?_, ?_, ?_, ?_⟩
  · simp [show_logs_open, LogStreamer.init, LogStreamer.buildCommand,
      dockerCmdBase, pyTruthy, pyFormat, ht]
  · simp [show_logs_open, LogStreamer.init, LogStreamer.buildCommand,
      dockerCmdBase, pyTruthy, pyFormat, ht]
  · simp [restart_log_stream, startNewWorker, LogStreamer.init, pyTruthy, ht]
  · simp [restart_log_stream, startNewWorker, LogStreamer.init, pyTruthy, ht]

/-- Witness for C7, at a concrete container id, timestamp and view. -/
theorem show_logs_initial_worker_witness :
    ((show_logs_open "abc123" (some "2024-03-01T12:00:00.123456789Z") []).log_thread.since_time
        = some "2024-03-01T12:00:00.123456789Z")
  ∧ ((show_logs_open "abc123" (some "2024-03-01T12:00:00.123456789Z") []).log_thread.until_time
        = none)
  ∧ ((show_logs_open "abc123" (some "2024-03-01T12:00:00.123456789Z") []).log_thread.running
        = true)
  ∧ ("-f" ∈ (show_logs_open "abc123" (some "2024-03-01T12:00:00.123456789Z") []).log_thread.buildCommand)
  ∧ ("--since=" ++ "2024-03-01T12:00:00.123456789Z"
        ∈ (show_logs_open "abc123" (some "2024-03-01T12:00:00.123456789Z") []).log_thread.buildCommand)
  ∧ ((restart_log_stream sampleView Mode.clear
        (some "2024-03-01T12:00:00.123456789Z")).log_thread.since_time
        = some "2024-03-01T12:00:00.123456789Z")
  ∧ ((restart_log_stream sampleView Mode.clear
        (some "2024-03-01T12:00:00.123456789Z")).log_thread.until_time = none) :=
  show_logs_initial_worker "abc123" "2024-03-01T12:00:00.123456789Z" []
    sampleView (by decide)

/-- **C10.** When the current-time query fails on view open, the initial
worker is nevertheless constructed, registered and started with both
bounds absent: its command is exactly
`wsl docker logs -t -f <id>` — following, with no `--since`, so the whole
historical backlog streams — and the Sink gets no error line. -/
theorem show_logs_query_failure (cid : String) (reg : List Nat)
    (hcs : ∀ v, cid ≠ "--since=" ++ v) :
    ((show_logs_open cid none reg).sink = [])
  ∧ ((show_logs_open cid none reg).log_thread.since_time = none)
  ∧ ((show_logs_open cid none reg).log_thread.until_time = none)
  ∧ ((show_logs_open cid none reg).log_thread.running = true)
  ∧ ((show_logs_open cid none reg).log_thread.buildCommand
      = ["wsl", "docker", "logs", "-t", "-f", cid])
  ∧ ("-f" ∈ (show_logs_open cid none reg).log_thread.buildCommand)
  ∧ (∀ v, "--since=" ++ v ∉ (show_logs_open cid none reg).log_thread.buildCommand)
  ∧ ((show_logs_open cid none reg).registry = reg ++ [0]) := by
  have n7 : ∀ v, ¬("--since=" ++ v = "wsl") := fun v =>
    (short_ne_append _ _ _ (by decide)).symm
  have n8 : ∀ v, ¬("--since=" ++ v = "docker") := fun v =>
    (short_ne_append _ _ _ (by decide)).symm
  have n9 : ∀ v, ¬("--since=" ++ v = "logs") := fun v =>
    (short_ne_append _ _ _ (by decide)).symm
  have n10 : ∀ v, ¬("--since=" ++ v = "-t") := fun v =>
    (short_ne_append _ _ _ (by decide)).symm
  have n11 : ∀ v, ¬("--since=" ++ v = "-f") := fun v =>
    (short_ne_append _ _ _ (by decide)).symm
  have hcs' : ∀ v, ¬("--since=" ++ v = cid) := fun v h => hcs v h.symm
  refine ⟨rfl, rfl, rfl, rfl, rfl, ?_, ?_, rfl⟩
  · simp [show_logs_open, LogStreamer.init, LogStreamer.buildCommand,
      dockerCmdBase, pyTruthy]
  · intro v
    simp [show_logs_open, LogStreamer.init, LogStreamer.buildCommand,
      dockerCmdBase, pyTruthy, n7, n8, n9, n10, n11, hcs']

/-- Witness for C10 at a concrete container id. -/
theorem show_logs_query_failure_witness :
    ((show_logs_open "abc123" none []).sink = [])
  ∧ ((show_logs_open "abc123" none []).log_thread.since_time = none)
  ∧ ((show_logs_open "abc123" none []).log_thread.until_time = none)
  ∧ ((show_logs_open "abc123" none []).log_thread.running = true)
  ∧ ((show_logs_open "abc123" none []).log_thread.buildCommand
      = ["wsl", "docker", "logs", "-t", "-f", "abc123"])
  ∧ ("-f" ∈ (show_logs_open "abc123" none []).log_thread.buildCommand)
  ∧ (∀ v, "--since=" ++ v ∉ (show_logs_open "abc123" none []).log_thread.buildCommand)
  ∧ ((show_logs_open "abc123" none []).registry = [] ++ [0]) :=
  show_logs_query_failure "abc123" []
    (fun v => short_ne_append _ _ _ (by decide))

/-- Helper for C6: with no raising termination, `on_close` completes,
terminating (at process level) exactly the workers that are alive and have
a process handle, and returning the registry with all its entries still
present. -/
theorem on_close_ok : ∀ ws : List AppWorker,
    (∀ w ∈ ws, w.terminate_throws = false) →
    on_close ws = Except.ok (ws.map closeWorker, ws.countP closeQualifies)
  | [] => fun _ => rfl
  | w :: ws => fun h => by
      have hw : w.terminate_throws = false := h w (List.mem_cons_self w ws)
      have ih := on_close_ok ws (fun x hx => h x (List.mem_cons_of_mem w hx))
      by_cases hq : closeQualifies w = true
      · simp [on_close, hq, hw, ih, List.countP_cons]
      · simp [on_close, hq, hw, ih, List.countP_cons]

/-- **C6** counterexample.  The claim says window teardown leaves the
registry empty and completes even if a worker's termination throws.  On a
concrete registry with one live worker, `on_close` completes but the
registry still holds that worker (nothing is ever removed); and with a
first worker whose process-terminate raises, the exception propagates
uncaught (there is no try/except in `on_close`), skipping the teardown of
the remaining workers. -/
theorem on_close_counterexample :
    on_close [aliveAppWorker]
      = Except.ok ([{ is_alive := true, log_process := some false,
                      terminate_throws := false }], 1)
  ∧ ([{ is_alive := true, log_process := some false,
        terminate_throws := false }] : List AppWorker) ≠ []
  ∧ on_close [throwingAppWorker, aliveAppWorker]
      = Except.error "terminate raised" := by
  refine ⟨rfl, by decide, rfl⟩

/-- **C6** (amended).  Window teardown calls process-level terminate once
for each registry worker whose thread is alive and whose process handle
exists; when no termination raises it completes with the registry still
holding all N workers (the registry is never emptied); and if a worker's
termination raises, the exception propagates out of `on_close` instead
of being swallowed, so the remaining workers are not torn down. -/
theorem on_close_teardown (ws : List AppWorker) :
    ((∀ w ∈ ws, w.terminate_throws = false) →
        on_close ws = Except.ok (ws.map closeWorker, ws.countP closeQualifies)
        ∧ (ws.map closeWorker).length = ws.length)
  ∧ (∀ v, closeQualifies v = true → v.terminate_throws = true →
        on_close (v :: ws) = Except.error "terminate raised") := by
  constructor
  · intro h
    exact ⟨on_close_ok ws h, by simp⟩
  · intro v hq ht
    simp [on_close, hq, ht]

/-- Witness for C6's amended theorem at a concrete registry. -/
theorem on_close_teardown_witness :
    (on_close [aliveAppWorker]
        = Except.ok ([aliveAppWorker].map closeWorker,
            [aliveAppWorker].countP closeQualifies)
      ∧ ([aliveAppWorker].map closeWorker).length = [aliveAppWorker].length)
  ∧ on_close (throwingAppWorker :: [aliveAppWorker])
      = Except.error "terminate raised" :=
  ⟨(on_close_teardown [aliveAppWorker]).1 (by decide),
   (on_close_teardown [aliveAppWorker]).2 throwingAppWorker (by decide)
     (by decide)⟩
